import Mathlib

/-!
DavePoolMonitor.

A shallow embedding of `src/DavePoolMonitor.cpp`, the firmware of a pool
temperature monitor: `setup()` joins the wireless network while blinking the
built-in LED, and `loop()` reads a one-wire temperature probe, builds a JSON
document and POSTs it.

The firmware is a sequence of calls into the Arduino core, the DallasTemperature
driver, ArduinoJson and HTTPClient.  Every such call is recorded, in program
order and with the arguments it is given, as an `Action` appended to the trace
of a `Board`; what the calls return (sensor values, the association status, the
HTTP result) is supplied by an environment record.  The board also carries the
output level of each pin, which `digitalRead` reads back and `digitalWrite`
updates.
-/

namespace DavePoolMonitor

/-! ## Values -/

/-- A C `float`: the 32 bits of an IEEE 754 binary32 value. -/
structure float where
  bits : Fin 4294967296
  deriving DecidableEq

/-- Biased exponent field, bits 23 to 30. -/
def float.exponent (x : float) : Nat := (x.bits.val / 8388608) % 256

/-- Fraction field, bits 0 to 22. -/
def float.fraction (x : float) : Nat := x.bits.val % 8388608

/-- A NaN has all exponent bits set and a non-zero fraction. -/
def float.isNaN (x : float) : Bool := x.exponent == 255 && x.fraction != 0

/-- Positive or negative zero: every bit below the sign bit is clear. -/
def float.isZero (x : float) : Bool := x.bits.val % 2147483648 == 0

/-- The C operator `==` on two floats: a NaN equals nothing, the two zeros are
equal, and otherwise the values are equal exactly when their bits are. -/
def float.eq (x y : float) : Bool :=
  !x.isNaN && !y.isNaN && (x.bits == y.bits || (x.isZero && y.isZero))

/-- The value `-127`, as the float that `tempC == DEVICE_DISCONNECTED_C`
compares with (`#define DEVICE_DISCONNECTED_C -127` in DallasTemperature.h). -/
def DEVICE_DISCONNECTED_C : float := ⟨0xC2FE0000⟩

/-- The value `-196.6`, rounded to binary32
(`#define DEVICE_DISCONNECTED_F -196.6` in DallasTemperature.h). -/
def DEVICE_DISCONNECTED_F : float := ⟨0xC344999A⟩

/-- The association states of `wl_status_t` (WiFiType.h). -/
inductive wl_status_t where
  | WL_NO_SHIELD
  | WL_IDLE_STATUS
  | WL_NO_SSID_AVAIL
  | WL_SCAN_COMPLETED
  | WL_CONNECTED
  | WL_CONNECT_FAILED
  | WL_CONNECTION_LOST
  | WL_DISCONNECTED
  deriving DecidableEq, Repr

open wl_status_t

/-- Pin modes of the Arduino core. -/
inductive PinMode where
  | INPUT
  | OUTPUT
  deriving DecidableEq, Repr

/-- Logic level written by `digitalWrite(pin, HIGH)`. -/
def HIGH : Bool := true

/-- Logic level written by `digitalWrite(pin, LOW)`. -/
def LOW : Bool := false

/-! ## Configuration -/

/-- The four macros of `secrets.h`, a header of the repository that is not
checked in; they are taken as parameters. -/
structure Secrets where
  WIFI_SSID : String
  WIFI_PASSWORD : String
  API_KEY : String
  GCP_FUNCTION_URL : String

/-- Source line 11. -/
def DEVICE_ID : String := "pool-monitor-01"

/-- Source line 14. -/
def ONE_WIRE_BUS : Nat := 4

/-- Source line 15. -/
def LED_PIN : Nat := 2

/-! ## JSON document -/

/-- A value stored in a document member: a string held by pointer, or a
floating-point number. -/
inductive JsonVariant where
  | str (s : String)
  | flt (f : float)
  deriving DecidableEq

/-- A `StaticJsonDocument<capacity>` holding one JSON object: its members in
insertion order. -/
structure JsonDocument where
  capacity : Nat
  members : List (String × JsonVariant)
  deriving DecidableEq

/-- Bytes of pool memory taken by one object member on a 32-bit target
(`JSON_OBJECT_SIZE(1)`); `const char*` keys and values are stored by pointer
and take no further pool memory. -/
def slotSize : Nat := 16

/-- The empty document declared by `StaticJsonDocument<N> doc;`. -/
def StaticJsonDocument (N : Nat) : JsonDocument := ⟨N, []⟩

/-- Pool bytes in use. -/
def JsonDocument.memoryUsage (d : JsonDocument) : Nat := slotSize * d.members.length

/-- Replace the value of the first member named `key`. -/
def replaceMember (key : String) (v : JsonVariant) :
    List (String × JsonVariant) → List (String × JsonVariant)
  | [] => []
  | (k, w) :: rest =>
    if k = key then (k, v) :: rest else (k, w) :: replaceMember key v rest

/-- The assignment `doc[key] = v`: an existing member is overwritten in place;
otherwise a member is appended when the pool has room for one more slot, and
the document is left as it is when the pool is full. -/
def JsonDocument.set (d : JsonDocument) (key : String) (v : JsonVariant) : JsonDocument :=
  if d.members.any (fun m => m.1 == key) then
    { d with members := replaceMember key v d.members }
  else if d.memoryUsage + slotSize ≤ d.capacity then
    { d with members := d.members ++ [(key, v)] }
  else d

/-- Member names, in order. -/
def JsonDocument.keys (d : JsonDocument) : List String := d.members.map Prod.fst

/-- The value of the first member named `key`, as `doc[key]` reads it. -/
def JsonDocument.get? (d : JsonDocument) (key : String) : Option JsonVariant :=
  (d.members.find? (fun m => m.1 == key)).map Prod.snd

/-! ## Trace -/

/-- An argument passed to `Serial.printf` after the format string. -/
inductive PrintfArg where
  | flt (f : float)
  | int (i : Int)
  | str (s : String)
  deriving DecidableEq

/-- One call made by the firmware, with the arguments it passes. -/
inductive Action where
  | Serial_begin (baud : Nat)
  | Serial_print (s : String)
  | Serial_println (s : String)
  | Serial_println_ip (ip : Nat)
  | Serial_printf (fmt : String) (args : List PrintfArg)
  | pinMode (pin : Nat) (mode : PinMode)
  | digitalRead (pin : Nat)
  | digitalWrite (pin : Nat) (level : Bool)
  | delay (ms : Nat)
  | sensors_begin
  | requestTemperatures
  | getTempCByIndex (index : Nat)
  | getTempFByIndex (index : Nat)
  | WiFi_begin (ssid : String) (passphrase : String)
  | WiFi_status
  | WiFi_localIP
  | serializeJson (doc : JsonDocument)
  | http_begin (url : String)
  | http_addHeader (name : String) (value : String)
  | http_POST (body : String)
  | http_getString
  | http_errorToString (code : Int)
  | http_end
  deriving DecidableEq

/-- The board: the output level of every pin and the calls made so far. -/
structure Board where
  pins : Nat → Bool
  trace : List Action

/-- Record one call. -/
def Board.emit (s : Board) (a : Action) : Board :=
  { s with trace := s.trace ++ [a] }

/-- The call `digitalRead(pin)`: the level the pin is driving. -/
def digitalRead (s : Board) (pin : Nat) : Bool × Board :=
  (s.pins pin, s.emit (Action.digitalRead pin))

/-- The call `digitalWrite(pin, level)`. -/
def digitalWrite (s : Board) (pin : Nat) (level : Bool) : Board :=
  { pins := fun p => if p = pin then level else s.pins p
    trace := s.trace ++ [Action.digitalWrite pin level] }

/-- The calls made between board `s` and a later board `t`. -/
def Board.since (s t : Board) : List Action := t.trace.drop s.trace.length

/-! ## setup() -/

/-- What the environment answers during `setup()`: the result of the k-th call
of `WiFi.status()` (counted from zero) and the address `WiFi.localIP()`. -/
structure SetupEnv where
  WiFi_status : Nat → wl_status_t
  localIP : Nat

/-- The loop `while (WiFi.status() != WL_CONNECTED) { ... }` of source lines 31
to 35, started at poll number `k`; `fuel` bounds the number of polls, and
`none` means the bound was reached with the loop still running. -/
def connectLoop : Nat → (Nat → wl_status_t) → Nat → Board → Option Board
  | 0, _, _, _ => none
  | fuel + 1, status, k, s =>
    let s := s.emit Action.WiFi_status
    if status k ≠ WL_CONNECTED then
      let s := s.emit (Action.delay 500)
      let s := s.emit (Action.Serial_print ".")
      let r := digitalRead s LED_PIN
      let s := digitalWrite r.2 LED_PIN (!r.1)
      connectLoop fuel status (k + 1) s
    else
      some s

/-- Source lines 21 to 40. -/
def setup (fuel : Nat) (cfg : Secrets) (env : SetupEnv) (s : Board) : Option Board :=
  let s := s.emit (Action.Serial_begin 115200)
  let s := s.emit (Action.pinMode LED_PIN PinMode.OUTPUT)
  let s := s.emit Action.sensors_begin
  let s := s.emit (Action.WiFi_begin cfg.WIFI_SSID cfg.WIFI_PASSWORD)
  let s := s.emit (Action.Serial_print "Connecting to Wi-Fi")
  match connectLoop fuel env.WiFi_status 0 s with
  | none => none
  | some s =>
    let s := s.emit (Action.Serial_println "")
    let s := s.emit (Action.Serial_print "Connected! IP address: ")
    let s := s.emit Action.WiFi_localIP
    let s := s.emit (Action.Serial_println_ip env.localIP)
    some (digitalWrite s LED_PIN HIGH)

/-! ## loop() -/

/-- What the environment answers during one `loop()` iteration. -/
structure LoopEnv where
  getTempCByIndex : Nat → float
  getTempFByIndex : Nat → float
  serializeJson : JsonDocument → String
  WiFi_status : wl_status_t
  POST : Int
  getString : String
  errorToString : Int → String

/-- The document of source lines 58 to 62. -/
def payload (cfg : Secrets) (tempC tempF : float) : JsonDocument :=
  let doc := StaticJsonDocument 200
  let doc := doc.set "api_key" (JsonVariant.str cfg.API_KEY)
  let doc := doc.set "device_id" (JsonVariant.str DEVICE_ID)
  let doc := doc.set "temperature_c" (JsonVariant.flt tempC)
  let doc := doc.set "temperature_f" (JsonVariant.flt tempF)
  doc

/-- Source lines 67 to 85: the upload, or the disconnection message. -/
def upload (cfg : Secrets) (env : LoopEnv) (jsonString : String) (s : Board) : Board :=
  let s := s.emit Action.WiFi_status
  if env.WiFi_status = WL_CONNECTED then
    let s := s.emit (Action.http_begin cfg.GCP_FUNCTION_URL)
    let s := s.emit (Action.http_addHeader "Content-Type" "application/json")
    let s := s.emit (Action.http_POST jsonString)
    let httpResponseCode := env.POST
    let s :=
      if httpResponseCode > 0 then
        let s := s.emit Action.http_getString
        let response := env.getString
        let s := s.emit
          (Action.Serial_printf "HTTP Response code: %d\n" [PrintfArg.int httpResponseCode])
        s.emit (Action.Serial_println response)
      else
        let s := s.emit (Action.http_errorToString httpResponseCode)
        s.emit (Action.Serial_printf "Error on sending POST: %s\n"
          [PrintfArg.str (env.errorToString httpResponseCode)])
    s.emit Action.http_end
  else
    s.emit (Action.Serial_println "Error: WiFi Disconnected")

/-- Source lines 42 to 89: one iteration. -/
def loop (cfg : Secrets) (env : LoopEnv) (s : Board) : Board :=
  let s := s.emit Action.requestTemperatures
  let s := s.emit (Action.getTempCByIndex 0)
  let tempC := env.getTempCByIndex 0
  let s := s.emit (Action.getTempFByIndex 0)
  let tempF := env.getTempFByIndex 0
  if float.eq tempC DEVICE_DISCONNECTED_C then
    let s := s.emit (Action.Serial_println "Error: Could not read temperature data")
    s.emit (Action.delay 2000)
  else
    let s := s.emit
      (Action.Serial_printf "Temperature: %.2f C / %.2f F\n" [PrintfArg.flt tempC, PrintfArg.flt tempF])
    let doc := payload cfg tempC tempF
    let jsonString := env.serializeJson doc
    let s := s.emit (Action.serializeJson doc)
    let s := upload cfg env jsonString s
    s.emit (Action.delay 60000)

/-! ## Reading a trace -/

/-- The argument of a `delay` call. -/
def Action.delayArg : Action → Option Nat
  | Action.delay ms => some ms
  | _ => none

/-- The arguments of the `delay` calls of a trace, in order. -/
def delays (l : List Action) : List Nat := l.filterMap Action.delayArg

/-- The document of a `serializeJson` call. -/
def Action.docArg : Action → Option JsonDocument
  | Action.serializeJson doc => some doc
  | _ => none

/-- The documents passed to `serializeJson` in a trace, in order. -/
def serialized (l : List Action) : List JsonDocument := l.filterMap Action.docArg

/-- The body of an `http.POST` call. -/
def Action.bodyArg : Action → Option String
  | Action.http_POST body => some body
  | _ => none

/-- The bodies passed to `http.POST` in a trace, in order. -/
def posted (l : List Action) : List String := l.filterMap Action.bodyArg

/-- The network name and passphrase of a `WiFi.begin` call. -/
def Action.credentialsArg : Action → Option (String × String)
  | Action.WiFi_begin ssid pass => some (ssid, pass)
  | _ => none

/-- The arguments of the `WiFi.begin` calls of a trace, in order. -/
def associations (l : List Action) : List (String × String) :=
  l.filterMap Action.credentialsArg

/-- Whether a call is made on the HTTP client. -/
def Action.isHttp : Action → Bool
  | Action.http_begin _ => true
  | Action.http_addHeader _ _ => true
  | Action.http_POST _ => true
  | Action.http_getString => true
  | Action.http_errorToString _ => true
  | Action.http_end => true
  | _ => false

/-- A call with what it logs blanked: the arguments after a `printf` format
string and the text of a `println`. -/
def Action.withoutLogged : Action → Action
  | Action.Serial_printf fmt _ => Action.Serial_printf fmt []
  | Action.Serial_println _ => Action.Serial_println ""
  | a => a

/-- The level of a `digitalWrite` call on `pin`. -/
def Action.levelArg (pin : Nat) : Action → Option Bool
  | Action.digitalWrite p level => if p = pin then some level else none
  | _ => none

/-- The levels written to `pin` in a trace, in order. -/
def writes (pin : Nat) (l : List Action) : List Bool := l.filterMap (Action.levelArg pin)

/-- How many of the written levels differ from the level the pin had just
before, starting from level `level`. -/
def flips : Bool → List Bool → Nat
  | _, [] => 0
  | level, v :: rest => (if v = level then 0 else 1) + flips v rest

/-- The calls of `n` rounds of the connect loop whose poll reported "not
connected", on a pin that starts at `level`: the poll, `delay(500)`, the dot,
and the read and inverted write of the LED. -/
def blinkCalls : Nat → Bool → List Action
  | 0, _ => []
  | n + 1, level =>
    [Action.WiFi_status, Action.delay 500, Action.Serial_print ".",
     Action.digitalRead LED_PIN, Action.digitalWrite LED_PIN (!level)]
      ++ blinkCalls n (!level)

/-- The float of a `printf` argument, when it is one. -/
def PrintfArg.floatArg : PrintfArg → Option float
  | PrintfArg.flt f => some f
  | _ => none

/-- The float of a document value, when it is one. -/
def JsonVariant.floatArg : JsonVariant → Option float
  | JsonVariant.flt f => some f
  | _ => none

/-- The floating-point values that a call is given: those among the arguments
of a `printf` and those stored in a serialised document. -/
def Action.floats : Action → List float
  | Action.Serial_printf _ args => args.filterMap PrintfArg.floatArg
  | Action.serializeJson doc => doc.members.filterMap (fun m => m.2.floatArg)
  | _ => []

/-! ## Example inputs -/

/-- A configuration. -/
def exampleSecrets : Secrets :=
  ⟨"pool-house", "hunter2", "k-123", "https://example.invalid/ingest"⟩

/-- A board with every pin low and nothing done yet. -/
def freshBoard : Board := ⟨fun _ => false, []⟩

/-- The float `21.5`. -/
def f21_50 : float := ⟨0x41AC0000⟩

/-- The float nearest to `70.7`. -/
def f70_70 : float := ⟨0x428D6666⟩

/-- An iteration in which the probe is unreachable, on a connected network whose
server would answer 200. -/
def envProbeMissing : LoopEnv :=
  ⟨fun _ => DEVICE_DISCONNECTED_C, fun _ => DEVICE_DISCONNECTED_F, fun _ => "json",
    WL_CONNECTED, 200, "OK", fun _ => "error"⟩

/-- An iteration with a good reading and the network association lost. -/
def envOffline : LoopEnv :=
  ⟨fun _ => f21_50, fun _ => f70_70, fun _ => "json",
    WL_CONNECTION_LOST, 200, "OK", fun _ => "error"⟩

/-- A good reading on a connected network whose server answers 200 "OK". -/
def envOnline200 : LoopEnv :=
  ⟨fun _ => f21_50, fun _ => f70_70, fun _ => "json",
    WL_CONNECTED, 200, "OK", fun _ => "error"⟩

/-- A good reading on a connected network whose server refuses the connection:
`POST` returns -1, which the client describes as "connection refused". -/
def envRefused : LoopEnv :=
  ⟨fun _ => f21_50, fun _ => f70_70, fun _ => "json",
    WL_CONNECTED, -1, "", fun c => if c = -1 then "connection refused" else "error"⟩

/-- An association that succeeds at the fourth poll. -/
def envFourthPoll : SetupEnv :=
  ⟨fun k => if k < 3 then WL_DISCONNECTED else WL_CONNECTED, 3232235777⟩

/-- A good Celsius value read together with the Fahrenheit sentinel, on a
connected network whose server answers 200. -/
def envMixed : LoopEnv :=
  ⟨fun _ => f21_50, fun _ => DEVICE_DISCONNECTED_F, fun _ => "json",
    WL_CONNECTED, 200, "OK", fun _ => "error"⟩

/-! ## Basic facts -/

/-- Recording a call appends it. -/
@[simp]
theorem emit_trace (s : Board) (a : Action) : (s.emit a).trace = s.trace ++ [a] := rfl

/-- Recording a call leaves the pins alone. -/
@[simp]
theorem emit_pins (s : Board) (a : Action) : (s.emit a).pins = s.pins := rfl

/-- What was appended to a trace is what was done since. -/
theorem since_append (s t : Board) (l : List Action) (h : t.trace = s.trace ++ l) :
    s.since t = l := by
  simp [Board.since, h]

/-- The document of source lines 58 to 62, member by member: the four
assignments all find room in the 200-byte pool. -/
theorem payload_members (cfg : Secrets) (tempC tempF : float) :
    payload cfg tempC tempF =
      ⟨200, [("api_key", JsonVariant.str cfg.API_KEY),
             ("device_id", JsonVariant.str "pool-monitor-01"),
             ("temperature_c", JsonVariant.flt tempC),
             ("temperature_f", JsonVariant.flt tempF)]⟩ := by
  simp [payload, StaticJsonDocument, JsonDocument.set, JsonDocument.memoryUsage, slotSize,
    DEVICE_ID]

/-- An iteration appends to the trace, and what it appends does not depend on
the calls made before it. -/
theorem loop_trace (cfg : Secrets) (env : LoopEnv) (s : Board) :
    (loop cfg env s).trace = s.trace ++ (loop cfg env ⟨s.pins, []⟩).trace := by
  by_cases h1 : float.eq (env.getTempCByIndex 0) DEVICE_DISCONNECTED_C = true <;>
    by_cases h2 : env.WiFi_status = WL_CONNECTED <;>
    by_cases h3 : 0 < env.POST <;>
    simp [loop, upload, h1, h2, h3]

/-- An iteration never writes a pin. -/
theorem loop_pins (cfg : Secrets) (env : LoopEnv) (s : Board) :
    (loop cfg env s).pins = s.pins := by
  by_cases h1 : float.eq (env.getTempCByIndex 0) DEVICE_DISCONNECTED_C = true <;>
    by_cases h2 : env.WiFi_status = WL_CONNECTED <;>
    by_cases h3 : 0 < env.POST <;>
    simp [loop, upload, h1, h2, h3]

/-- Every iteration starts by asking the probe for a conversion and fetching
both values of device 0. -/
theorem loop_starts_with_read (cfg : Secrets) (env : LoopEnv) (s : Board) :
    (s.since (loop cfg env s)).take 3 =
      [Action.requestTemperatures, Action.getTempCByIndex 0, Action.getTempFByIndex 0] := by
  rw [since_append s _ _ (loop_trace cfg env s)]
  by_cases h1 : float.eq (env.getTempCByIndex 0) DEVICE_DISCONNECTED_C = true <;>
    by_cases h2 : env.WiFi_status = WL_CONNECTED <;>
    by_cases h3 : 0 < env.POST <;>
    simp [loop, upload, h1, h2, h3]

/-! ## The disconnected probe -/

/-- C1. When the Celsius read of device 0 compares equal to
DEVICE_DISCONNECTED_C, then whatever the Fahrenheit value, the association
status and the HTTP result would be, the iteration makes exactly five calls:
the conversion request, the two fetches, the line
"Error: Could not read temperature data" and `delay(2000)`.  It serialises no
document, makes no call on the HTTP client and no POST, its only delay is the
one of 2000 ms (within 2000 to 3000 ms, and not 60000), it leaves the pins
alone, and the calls of the iteration that follows begin with the next read. -/
theorem loop_probe_disconnected (cfg : Secrets) (env : LoopEnv) (s : Board)
    (h : float.eq (env.getTempCByIndex 0) DEVICE_DISCONNECTED_C = true) :
    (loop cfg env s).trace = s.trace ++ s.since (loop cfg env s) ∧
    s.since (loop cfg env s) =
      [Action.requestTemperatures, Action.getTempCByIndex 0, Action.getTempFByIndex 0,
       Action.Serial_println "Error: Could not read temperature data", Action.delay 2000] ∧
    serialized (s.since (loop cfg env s)) = [] ∧
    posted (s.since (loop cfg env s)) = [] ∧
    (∀ a ∈ s.since (loop cfg env s), a.isHttp = false) ∧
    delays (s.since (loop cfg env s)) = [2000] ∧
    (∀ ms ∈ delays (s.since (loop cfg env s)), 2000 ≤ ms ∧ ms ≤ 3000 ∧ ms ≠ 60000) ∧
    (loop cfg env s).pins = s.pins ∧
    (∀ next : LoopEnv,
      ((loop cfg env s).since (loop cfg next (loop cfg env s))).take 3 =
        [Action.requestTemperatures, Action.getTempCByIndex 0, Action.getTempFByIndex 0]) := by
  have ht : (loop cfg env s).trace = s.trace ++
      [Action.requestTemperatures, Action.getTempCByIndex 0, Action.getTempFByIndex 0,
       Action.Serial_println "Error: Could not read temperature data", Action.delay 2000] := by
    simp [loop, h]
  have hs := since_append s _ _ ht
  refine ⟨by rw [hs]; exact ht, hs, ?_, ?_, ?_, ?_, ?_, loop_pins cfg env s,
    fun next => loop_starts_with_read cfg next _⟩
  · rw [hs]; rfl
  · rw [hs]; rfl
  · rw [hs]; intro a ha; simp at ha; rcases ha with rfl | rfl | rfl | rfl | rfl <;> rfl
  · rw [hs]; rfl
  · rw [hs]; intro ms hms; simp [delays, Action.delayArg] at hms; subst hms; decide

/-- An instance of C1: the example whose probe is unreachable satisfies the
hypothesis, and its iteration makes the five calls. -/
theorem loop_probe_disconnected_witness :
    float.eq (envProbeMissing.getTempCByIndex 0) DEVICE_DISCONNECTED_C = true ∧
    freshBoard.since (loop exampleSecrets envProbeMissing freshBoard) =
      [Action.requestTemperatures, Action.getTempCByIndex 0, Action.getTempFByIndex 0,
       Action.Serial_println "Error: Could not read temperature data", Action.delay 2000] :=
  ⟨by decide, (loop_probe_disconnected exampleSecrets envProbeMissing freshBoard (by decide)).2.1⟩

/-! ## The lost association -/

/-- C2. With a reading whose Celsius value does not compare equal to the
sentinel and with `WiFi.status()` other than WL_CONNECTED, the iteration makes
exactly eight calls: the read, the temperature line, the serialisation, the
status poll, the line "Error: WiFi Disconnected" and `delay(60000)`.  No POST
is issued, no call is made on the HTTP client, `WiFi.begin` is not called, and
the one delay of the iteration, 60000 ms, is its last call. -/
theorem loop_wifi_disconnected (cfg : Secrets) (env : LoopEnv) (s : Board)
    (hvalid : float.eq (env.getTempCByIndex 0) DEVICE_DISCONNECTED_C = false)
    (hwifi : env.WiFi_status ≠ WL_CONNECTED) :
    s.since (loop cfg env s) =
      [Action.requestTemperatures, Action.getTempCByIndex 0, Action.getTempFByIndex 0,
       Action.Serial_printf "Temperature: %.2f C / %.2f F\n"
         [PrintfArg.flt (env.getTempCByIndex 0), PrintfArg.flt (env.getTempFByIndex 0)],
       Action.serializeJson (payload cfg (env.getTempCByIndex 0) (env.getTempFByIndex 0)),
       Action.WiFi_status,
       Action.Serial_println "Error: WiFi Disconnected",
       Action.delay 60000] ∧
    posted (s.since (loop cfg env s)) = [] ∧
    (∀ a ∈ s.since (loop cfg env s), a.isHttp = false) ∧
    (∀ ssid pass, Action.WiFi_begin ssid pass ∉ s.since (loop cfg env s)) ∧
    delays (s.since (loop cfg env s)) = [60000] ∧
    (s.since (loop cfg env s)).getLast? = some (Action.delay 60000) := by
  have ht : (loop cfg env s).trace = s.trace ++
      [Action.requestTemperatures, Action.getTempCByIndex 0, Action.getTempFByIndex 0,
       Action.Serial_printf "Temperature: %.2f C / %.2f F\n"
         [PrintfArg.flt (env.getTempCByIndex 0), PrintfArg.flt (env.getTempFByIndex 0)],
       Action.serializeJson (payload cfg (env.getTempCByIndex 0) (env.getTempFByIndex 0)),
       Action.WiFi_status,
       Action.Serial_println "Error: WiFi Disconnected",
       Action.delay 60000] := by
    simp [loop, upload, hvalid, hwifi]
  have hs := since_append s _ _ ht
  rw [hs]
  refine ⟨rfl, rfl, ?_, ?_, rfl, rfl⟩
  · intro a ha
    simp at ha
    rcases ha with rfl | rfl | rfl | rfl | rfl | rfl | rfl | rfl <;> rfl
  · intro ssid pass
    simp

/-- An instance of C2: the example whose association is lost satisfies the
hypotheses, and no POST is issued there. -/
theorem loop_wifi_disconnected_witness :
    float.eq (envOffline.getTempCByIndex 0) DEVICE_DISCONNECTED_C = false ∧
    envOffline.WiFi_status ≠ WL_CONNECTED ∧
    posted (freshBoard.since (loop exampleSecrets envOffline freshBoard)) = [] :=
  ⟨by decide, by decide,
    (loop_wifi_disconnected exampleSecrets envOffline freshBoard (by decide) (by decide)).2.1⟩

/-! ## The payload -/

/-- C3. For every reading whose Celsius value does not compare equal to the
sentinel, every Fahrenheit value and every API key, the iteration passes
exactly one document to `serializeJson`, and that document has exactly four
members, named api_key, device_id, temperature_c and temperature_f in this
order, holding the configured API key, "pool-monitor-01", the Celsius value
just read and the Fahrenheit value just read. -/
theorem loop_payload_document (cfg : Secrets) (env : LoopEnv) (s : Board)
    (hvalid : float.eq (env.getTempCByIndex 0) DEVICE_DISCONNECTED_C = false) :
    ∃ doc : JsonDocument,
      serialized (s.since (loop cfg env s)) = [doc] ∧
      doc.members.length = 4 ∧
      doc.keys = ["api_key", "device_id", "temperature_c", "temperature_f"] ∧
      doc.members =
        [("api_key", JsonVariant.str cfg.API_KEY),
         ("device_id", JsonVariant.str "pool-monitor-01"),
         ("temperature_c", JsonVariant.flt (env.getTempCByIndex 0)),
         ("temperature_f", JsonVariant.flt (env.getTempFByIndex 0))] := by
  refine ⟨payload cfg (env.getTempCByIndex 0) (env.getTempFByIndex 0), ?_, ?_, ?_, ?_⟩
  · rw [since_append s _ _ (loop_trace cfg env s)]
    by_cases h2 : env.WiFi_status = WL_CONNECTED <;>
      by_cases h3 : 0 < env.POST <;>
      simp [loop, upload, hvalid, h2, h3, serialized, Action.docArg]
  · rw [payload_members]; rfl
  · rw [payload_members]; rfl
  · rw [payload_members]

/-- An instance of C3: the reading 21.5 C, 70.7 F satisfies the hypothesis, and
the document serialised there is the four-member one. -/
theorem loop_payload_document_witness :
    float.eq (envOffline.getTempCByIndex 0) DEVICE_DISCONNECTED_C = false ∧
    ∃ doc : JsonDocument,
      serialized (freshBoard.since (loop exampleSecrets envOffline freshBoard)) = [doc] ∧
      doc.members.length = 4 ∧
      doc.keys = ["api_key", "device_id", "temperature_c", "temperature_f"] ∧
      doc.members =
        [("api_key", JsonVariant.str "k-123"),
         ("device_id", JsonVariant.str "pool-monitor-01"),
         ("temperature_c", JsonVariant.flt f21_50),
         ("temperature_f", JsonVariant.flt f70_70)] :=
  ⟨by decide, loop_payload_document exampleSecrets envOffline freshBoard (by decide)⟩

/-! ## The upload -/

/-- C5. With a good reading, the network connected and a positive return code
from `POST`, the calls that follow the POST are `http.getString()`, the line
"HTTP Response code: %d" with the code, the response body printed as a line,
`http.end()` and `delay(60000)`, the last call of the iteration.  Replacing
the code by any other positive code and the body by any other text leaves the
whole sequence of calls the same once the logged arguments are blanked. -/
theorem loop_post_positive (cfg : Secrets) (env : LoopEnv) (s : Board)
    (hvalid : float.eq (env.getTempCByIndex 0) DEVICE_DISCONNECTED_C = false)
    (hwifi : env.WiFi_status = WL_CONNECTED)
    (hcode : 0 < env.POST) :
    s.since (loop cfg env s) =
      [Action.requestTemperatures, Action.getTempCByIndex 0, Action.getTempFByIndex 0,
       Action.Serial_printf "Temperature: %.2f C / %.2f F\n"
         [PrintfArg.flt (env.getTempCByIndex 0), PrintfArg.flt (env.getTempFByIndex 0)],
       Action.serializeJson (payload cfg (env.getTempCByIndex 0) (env.getTempFByIndex 0)),
       Action.WiFi_status,
       Action.http_begin cfg.GCP_FUNCTION_URL,
       Action.http_addHeader "Content-Type" "application/json",
       Action.http_POST
         (env.serializeJson (payload cfg (env.getTempCByIndex 0) (env.getTempFByIndex 0))),
       Action.http_getString,
       Action.Serial_printf "HTTP Response code: %d\n" [PrintfArg.int env.POST],
       Action.Serial_println env.getString,
       Action.http_end,
       Action.delay 60000] ∧
    (∀ (code : Int) (body : String), 0 < code →
      (s.since (loop cfg { env with POST := code, getString := body } s)).map
          Action.withoutLogged =
        (s.since (loop cfg env s)).map Action.withoutLogged) := by
  have key : ∀ e : LoopEnv, float.eq (e.getTempCByIndex 0) DEVICE_DISCONNECTED_C = false →
      e.WiFi_status = WL_CONNECTED → 0 < e.POST →
      s.since (loop cfg e s) =
        [Action.requestTemperatures, Action.getTempCByIndex 0, Action.getTempFByIndex 0,
         Action.Serial_printf "Temperature: %.2f C / %.2f F\n"
           [PrintfArg.flt (e.getTempCByIndex 0), PrintfArg.flt (e.getTempFByIndex 0)],
         Action.serializeJson (payload cfg (e.getTempCByIndex 0) (e.getTempFByIndex 0)),
         Action.WiFi_status,
         Action.http_begin cfg.GCP_FUNCTION_URL,
         Action.http_addHeader "Content-Type" "application/json",
         Action.http_POST
           (e.serializeJson (payload cfg (e.getTempCByIndex 0) (e.getTempFByIndex 0))),
         Action.http_getString,
         Action.Serial_printf "HTTP Response code: %d\n" [PrintfArg.int e.POST],
         Action.Serial_println e.getString,
         Action.http_end,
         Action.delay 60000] := by
    intro e h1 h2 h3
    apply since_append
    simp [loop, upload, h1, h2, h3]
  refine ⟨key env hvalid hwifi hcode, ?_⟩
  intro code body hpos
  rw [key env hvalid hwifi hcode, key { env with POST := code, getString := body } hvalid hwifi hpos]
  rfl

/-- An instance of C5: the answer 200 "OK" satisfies the hypotheses, and the
answer 404 "Not Found" gives the same calls once the logged arguments are
blanked. -/
theorem loop_post_positive_witness :
    float.eq (envOnline200.getTempCByIndex 0) DEVICE_DISCONNECTED_C = false ∧
    envOnline200.WiFi_status = WL_CONNECTED ∧
    0 < envOnline200.POST ∧
    (freshBoard.since (loop exampleSecrets
        { envOnline200 with POST := 404, getString := "Not Found" } freshBoard)).map
          Action.withoutLogged =
      (freshBoard.since (loop exampleSecrets envOnline200 freshBoard)).map
          Action.withoutLogged :=
  ⟨by decide, by decide, by decide,
    (loop_post_positive exampleSecrets envOnline200 freshBoard (by decide) (by decide)
      (by decide)).2 404 "Not Found" (by decide)⟩

/-- C6. With a good reading, the network connected and a return code from
`POST` that is zero or negative, the calls that follow the POST are
`http.errorToString(code)`, the line "Error on sending POST: %s" with the
client's text for that code, `http.end()` and `delay(60000)`, the last call
of the iteration.  The response body is not fetched, no line is printed with
`println`, exactly one POST is issued, the only delay is the one of 60000 ms,
and the calls of the iteration that follows begin with the next read. -/
theorem loop_post_failed (cfg : Secrets) (env : LoopEnv) (s : Board)
    (hvalid : float.eq (env.getTempCByIndex 0) DEVICE_DISCONNECTED_C = false)
    (hwifi : env.WiFi_status = WL_CONNECTED)
    (hcode : env.POST ≤ 0) :
    s.since (loop cfg env s) =
      [Action.requestTemperatures, Action.getTempCByIndex 0, Action.getTempFByIndex 0,
       Action.Serial_printf "Temperature: %.2f C / %.2f F\n"
         [PrintfArg.flt (env.getTempCByIndex 0), PrintfArg.flt (env.getTempFByIndex 0)],
       Action.serializeJson (payload cfg (env.getTempCByIndex 0) (env.getTempFByIndex 0)),
       Action.WiFi_status,
       Action.http_begin cfg.GCP_FUNCTION_URL,
       Action.http_addHeader "Content-Type" "application/json",
       Action.http_POST
         (env.serializeJson (payload cfg (env.getTempCByIndex 0) (env.getTempFByIndex 0))),
       Action.http_errorToString env.POST,
       Action.Serial_printf "Error on sending POST: %s\n"
         [PrintfArg.str (env.errorToString env.POST)],
       Action.http_end,
       Action.delay 60000] ∧
    Action.http_getString ∉ s.since (loop cfg env s) ∧
    (∀ text, Action.Serial_println text ∉ s.since (loop cfg env s)) ∧
    posted (s.since (loop cfg env s)) =
      [env.serializeJson (payload cfg (env.getTempCByIndex 0) (env.getTempFByIndex 0))] ∧
    delays (s.since (loop cfg env s)) = [60000] ∧
    (∀ next : LoopEnv,
      ((loop cfg env s).since (loop cfg next (loop cfg env s))).take 3 =
        [Action.requestTemperatures, Action.getTempCByIndex 0, Action.getTempFByIndex 0]) := by
  have hs : s.since (loop cfg env s) = _ :=
    since_append s _
      [Action.requestTemperatures, Action.getTempCByIndex 0, Action.getTempFByIndex 0,
       Action.Serial_printf "Temperature: %.2f C / %.2f F\n"
         [PrintfArg.flt (env.getTempCByIndex 0), PrintfArg.flt (env.getTempFByIndex 0)],
       Action.serializeJson (payload cfg (env.getTempCByIndex 0) (env.getTempFByIndex 0)),
       Action.WiFi_status,
       Action.http_begin cfg.GCP_FUNCTION_URL,
       Action.http_addHeader "Content-Type" "application/json",
       Action.http_POST
         (env.serializeJson (payload cfg (env.getTempCByIndex 0) (env.getTempFByIndex 0))),
       Action.http_errorToString env.POST,
       Action.Serial_printf "Error on sending POST: %s\n"
         [PrintfArg.str (env.errorToString env.POST)],
       Action.http_end,
       Action.delay 60000]
      (by simp [loop, upload, hvalid, hwifi, not_lt.mpr hcode])
  rw [hs]
  refine ⟨rfl, by simp, fun text => by simp, rfl, rfl,
    fun next => loop_starts_with_read cfg next _⟩

/-- An instance of C6: the refused connection satisfies the hypotheses, and the
line logged there carries the text "connection refused". -/
theorem loop_post_failed_witness :
    float.eq (envRefused.getTempCByIndex 0) DEVICE_DISCONNECTED_C = false ∧
    envRefused.WiFi_status = WL_CONNECTED ∧
    envRefused.POST ≤ 0 ∧
    freshBoard.since (loop exampleSecrets envRefused freshBoard) =
      [Action.requestTemperatures, Action.getTempCByIndex 0, Action.getTempFByIndex 0,
       Action.Serial_printf "Temperature: %.2f C / %.2f F\n"
         [PrintfArg.flt f21_50, PrintfArg.flt f70_70],
       Action.serializeJson (payload exampleSecrets f21_50 f70_70),
       Action.WiFi_status,
       Action.http_begin "https://example.invalid/ingest",
       Action.http_addHeader "Content-Type" "application/json",
       Action.http_POST "json",
       Action.http_errorToString (-1),
       Action.Serial_printf "Error on sending POST: %s\n" [PrintfArg.str "connection refused"],
       Action.http_end,
       Action.delay 60000] :=
  ⟨by decide, by decide, by decide,
    (loop_post_failed exampleSecrets envRefused freshBoard (by decide) (by decide)
      (by decide)).1⟩

/-- C7. With a good reading and the network connected, the iteration is one
cycle, in this order: the conversion request, the Celsius and the Fahrenheit
fetch for device 0, the temperature line, the serialisation of the payload,
the status poll, `http.begin` on the configured URL, the Content-Type header,
the POST of the text serialised from this iteration's reading, the logging of
the outcome (three calls after a positive code, two otherwise), `http.end()`
and `delay(60000)`.  Each of the request, the two fetches, the serialisation,
`http.begin`, the header, the POST, `http.end()` and the delay occurs exactly
once. -/
theorem loop_cycle (cfg : Secrets) (env : LoopEnv) (s : Board)
    (hvalid : float.eq (env.getTempCByIndex 0) DEVICE_DISCONNECTED_C = false)
    (hwifi : env.WiFi_status = WL_CONNECTED) :
    s.since (loop cfg env s) =
      [Action.requestTemperatures, Action.getTempCByIndex 0, Action.getTempFByIndex 0,
       Action.Serial_printf "Temperature: %.2f C / %.2f F\n"
         [PrintfArg.flt (env.getTempCByIndex 0), PrintfArg.flt (env.getTempFByIndex 0)],
       Action.serializeJson (payload cfg (env.getTempCByIndex 0) (env.getTempFByIndex 0)),
       Action.WiFi_status,
       Action.http_begin cfg.GCP_FUNCTION_URL,
       Action.http_addHeader "Content-Type" "application/json",
       Action.http_POST
         (env.serializeJson (payload cfg (env.getTempCByIndex 0) (env.getTempFByIndex 0)))]
      ++ (if 0 < env.POST then
            [Action.http_getString,
             Action.Serial_printf "HTTP Response code: %d\n" [PrintfArg.int env.POST],
             Action.Serial_println env.getString]
          else
            [Action.http_errorToString env.POST,
             Action.Serial_printf "Error on sending POST: %s\n"
               [PrintfArg.str (env.errorToString env.POST)]])
      ++ [Action.http_end, Action.delay 60000] ∧
    (s.since (loop cfg env s)).count Action.requestTemperatures = 1 ∧
    (s.since (loop cfg env s)).count (Action.getTempCByIndex 0) = 1 ∧
    (s.since (loop cfg env s)).count (Action.getTempFByIndex 0) = 1 ∧
    serialized (s.since (loop cfg env s)) =
      [payload cfg (env.getTempCByIndex 0) (env.getTempFByIndex 0)] ∧
    (s.since (loop cfg env s)).filter Action.isHttp =
      [Action.http_begin cfg.GCP_FUNCTION_URL,
       Action.http_addHeader "Content-Type" "application/json",
       Action.http_POST
         (env.serializeJson (payload cfg (env.getTempCByIndex 0) (env.getTempFByIndex 0)))]
      ++ (if 0 < env.POST then [Action.http_getString]
          else [Action.http_errorToString env.POST])
      ++ [Action.http_end] ∧
    posted (s.since (loop cfg env s)) =
      [env.serializeJson (payload cfg (env.getTempCByIndex 0) (env.getTempFByIndex 0))] ∧
    delays (s.since (loop cfg env s)) = [60000] ∧
    (s.since (loop cfg env s)).getLast? = some (Action.delay 60000) := by
  by_cases hcode : 0 < env.POST
  · have hs : s.since (loop cfg env s) = _ :=
      since_append s _ _ (by simp [loop, upload, hvalid, hwifi, hcode]; rfl)
    rw [hs]
    simp only [hcode, if_true]
    refine ⟨rfl, ?_, ?_, ?_, rfl, rfl, rfl, rfl, rfl⟩ <;> simp [List.count_cons]
  · have hs : s.since (loop cfg env s) = _ :=
      since_append s _ _ (by simp [loop, upload, hvalid, hwifi, hcode]; rfl)
    rw [hs]
    simp only [hcode, if_false]
    refine ⟨rfl, ?_, ?_, ?_, rfl, rfl, rfl, rfl, rfl⟩ <;> simp [List.count_cons]

/-- An instance of C7: the answer 200 "OK" satisfies the hypotheses; the one
POST of that iteration carries the text serialised from its reading. -/
theorem loop_cycle_witness :
    float.eq (envOnline200.getTempCByIndex 0) DEVICE_DISCONNECTED_C = false ∧
    envOnline200.WiFi_status = WL_CONNECTED ∧
    posted (freshBoard.since (loop exampleSecrets envOnline200 freshBoard)) =
      [envOnline200.serializeJson (payload exampleSecrets f21_50 f70_70)] ∧
    delays (freshBoard.since (loop exampleSecrets envOnline200 freshBoard)) = [60000] :=
  ⟨by decide, by decide,
    (loop_cycle exampleSecrets envOnline200 freshBoard (by decide) (by decide)).2.2.2.2.2.2.1,
    (loop_cycle exampleSecrets envOnline200 freshBoard (by decide) (by decide)).2.2.2.2.2.2.2.1⟩

/-! ## The connect phase -/

/-- With `n` failed polls followed by a successful one and a bound above `n`,
the connect loop returns, having made `n` blink rounds and the last poll. -/
theorem connectLoop_spec (status : Nat → wl_status_t) :
    ∀ (n fuel k : Nat) (s : Board),
      (∀ i, i < n → status (k + i) ≠ WL_CONNECTED) → status (k + n) = WL_CONNECTED →
      n < fuel →
      ∃ t, connectLoop fuel status k s = some t ∧
        t.trace = s.trace ++ blinkCalls n (s.pins LED_PIN) ++ [Action.WiFi_status] := by
  intro n
  induction n with
  | zero =>
    intro fuel k s _ hconn hfuel
    obtain ⟨f, rfl⟩ : ∃ f, fuel = f + 1 := ⟨fuel - 1, by omega⟩
    refine ⟨s.emit Action.WiFi_status, ?_, ?_⟩
    · have hk : status k = WL_CONNECTED := by simpa using hconn
      simp [connectLoop, hk]
    · simp [blinkCalls]
  | succ n ih =>
    intro fuel k s hnot hconn hfuel
    obtain ⟨f, rfl⟩ : ∃ f, fuel = f + 1 := ⟨fuel - 1, by omega⟩
    have hk : status k ≠ WL_CONNECTED := by simpa using hnot 0 (by omega)
    have hnot2 : ∀ i, i < n → status (k + 1 + i) ≠ WL_CONNECTED := by
      intro i hi
      have := hnot (i + 1) (by omega)
      rwa [show k + (i + 1) = k + 1 + i by omega] at this
    have hconn2 : status (k + 1 + n) = WL_CONNECTED := by
      rwa [show k + (n + 1) = k + 1 + n by omega] at hconn
    obtain ⟨t, ht, htr⟩ := ih f (k + 1)
      (digitalWrite
        (digitalRead ((s.emit Action.WiFi_status).emit (Action.delay 500) |>.emit
          (Action.Serial_print ".")) LED_PIN).2
        LED_PIN
        (!(digitalRead ((s.emit Action.WiFi_status).emit (Action.delay 500) |>.emit
          (Action.Serial_print ".")) LED_PIN).1))
      hnot2 hconn2 (by omega)
    refine ⟨t, ?_, ?_⟩
    · rw [connectLoop]
      simp only [hk, ne_eq, not_false_eq_true, if_true]
      exact ht
    · rw [htr]
      simp [digitalWrite, digitalRead, blinkCalls]

/-- The delays of `n` blink rounds. -/
theorem delays_blinkCalls (n : Nat) (level : Bool) :
    delays (blinkCalls n level) = List.replicate n 500 := by
  induction n generalizing level with
  | zero => rfl
  | succ n ih =>
    have := ih (!level)
    simp only [delays] at this ⊢
    simp [blinkCalls, Action.delayArg, this, List.replicate_succ]

/-- A blink round never calls `WiFi.begin`. -/
theorem associations_blinkCalls (n : Nat) (level : Bool) :
    associations (blinkCalls n level) = [] := by
  induction n generalizing level with
  | zero => rfl
  | succ n ih =>
    have := ih (!level)
    simp only [associations] at this ⊢
    simp [blinkCalls, Action.credentialsArg, this]

/-- Each blink round reads the LED once. -/
theorem count_digitalRead_blinkCalls (n : Nat) (level : Bool) :
    (blinkCalls n level).count (Action.digitalRead LED_PIN) = n := by
  induction n generalizing level with
  | zero => rfl
  | succ n ih => simp [blinkCalls, List.count_cons, ih (!level)]

/-- Each blink round polls the status once. -/
theorem count_status_blinkCalls (n : Nat) (level : Bool) :
    (blinkCalls n level).count Action.WiFi_status = n := by
  induction n generalizing level with
  | zero => rfl
  | succ n ih => simp [blinkCalls, List.count_cons, ih (!level)]

/-- Each blink round writes the LED once, inverting its level. -/
theorem writes_blinkCalls (n : Nat) (level : Bool) :
    (writes LED_PIN (blinkCalls n level)).length = n ∧
    flips level (writes LED_PIN (blinkCalls n level)) = n := by
  induction n generalizing level with
  | zero => exact ⟨rfl, rfl⟩
  | succ n ih =>
    obtain ⟨h1, h2⟩ := ih (!level)
    simp only [writes] at h1 h2 ⊢
    have hw : Action.levelArg LED_PIN (Action.digitalWrite LED_PIN (!level)) = some (!level) := by
      simp [Action.levelArg]
    constructor
    · simp [blinkCalls, Action.levelArg, List.filterMap_cons, hw, h1]
    · simp [blinkCalls, Action.levelArg, List.filterMap_cons, hw, flips, h2]
      omega

/-- C8. If `WiFi.status()` reports a state other than WL_CONNECTED at its first
`n` polls and WL_CONNECTED at the next one, then `setup()` returns (with any
bound on the number of polls above `n`) after the five opening calls, `n`
rounds of poll, `delay(500)`, dot, LED read and inverted LED write, the
successful poll and the five closing calls.  `WiFi.begin` is called exactly
once, with the configured credentials; the delays are exactly `n`, each of
500 ms; the LED is read `n` times and written `n + 1` times, of which the
first `n` each invert the level of the pin and the last writes HIGH; the poll
is made `n + 1` times; and the LED pin is HIGH on exit, for every `n` and
every initial level of the pin. -/
theorem setup_connect_phase (cfg : Secrets) (env : SetupEnv) (s : Board) (n fuel : Nat)
    (hnot : ∀ k, k < n → env.WiFi_status k ≠ WL_CONNECTED)
    (hconn : env.WiFi_status n = WL_CONNECTED)
    (hfuel : n < fuel) :
    ∃ t, setup fuel cfg env s = some t ∧
      s.since t =
        [Action.Serial_begin 115200, Action.pinMode LED_PIN PinMode.OUTPUT,
         Action.sensors_begin, Action.WiFi_begin cfg.WIFI_SSID cfg.WIFI_PASSWORD,
         Action.Serial_print "Connecting to Wi-Fi"]
        ++ blinkCalls n (s.pins LED_PIN)
        ++ [Action.WiFi_status, Action.Serial_println "",
            Action.Serial_print "Connected! IP address: ", Action.WiFi_localIP,
            Action.Serial_println_ip env.localIP, Action.digitalWrite LED_PIN HIGH] ∧
      associations (s.since t) = [(cfg.WIFI_SSID, cfg.WIFI_PASSWORD)] ∧
      delays (s.since t) = List.replicate n 500 ∧
      (s.since t).count (Action.digitalRead LED_PIN) = n ∧
      (writes LED_PIN (s.since t)).length = n + 1 ∧
      flips (s.pins LED_PIN) (writes LED_PIN (s.since t)).dropLast = n ∧
      (writes LED_PIN (s.since t)).getLast? = some HIGH ∧
      (s.since t).count Action.WiFi_status = n + 1 ∧
      t.pins LED_PIN = HIGH := by
  obtain ⟨u, hu, hut⟩ := connectLoop_spec env.WiFi_status n fuel 0
    (((((s.emit (Action.Serial_begin 115200)).emit (Action.pinMode LED_PIN PinMode.OUTPUT)).emit
      Action.sensors_begin).emit (Action.WiFi_begin cfg.WIFI_SSID cfg.WIFI_PASSWORD)).emit
      (Action.Serial_print "Connecting to Wi-Fi"))
    (by simpa using hnot) (by simpa using hconn) hfuel
  refine ⟨digitalWrite ((((u.emit (Action.Serial_println "")).emit
      (Action.Serial_print "Connected! IP address: ")).emit Action.WiFi_localIP).emit
      (Action.Serial_println_ip env.localIP)) LED_PIN HIGH, by simp only [setup, hu], ?_⟩
  have hs : s.since (digitalWrite ((((u.emit (Action.Serial_println "")).emit
      (Action.Serial_print "Connected! IP address: ")).emit Action.WiFi_localIP).emit
      (Action.Serial_println_ip env.localIP)) LED_PIN HIGH) =
        [Action.Serial_begin 115200, Action.pinMode LED_PIN PinMode.OUTPUT,
         Action.sensors_begin, Action.WiFi_begin cfg.WIFI_SSID cfg.WIFI_PASSWORD,
         Action.Serial_print "Connecting to Wi-Fi"]
        ++ blinkCalls n (s.pins LED_PIN)
        ++ [Action.WiFi_status, Action.Serial_println "",
            Action.Serial_print "Connected! IP address: ", Action.WiFi_localIP,
            Action.Serial_println_ip env.localIP, Action.digitalWrite LED_PIN HIGH] := by
    apply since_append
    simp [digitalWrite, hut]
  rw [hs]
  have hd := delays_blinkCalls n (s.pins LED_PIN)
  have ha := associations_blinkCalls n (s.pins LED_PIN)
  have hr := count_digitalRead_blinkCalls n (s.pins LED_PIN)
  have hp := count_status_blinkCalls n (s.pins LED_PIN)
  obtain ⟨hw1, hw2⟩ := writes_blinkCalls n (s.pins LED_PIN)
  simp only [delays, associations, writes] at hd ha hw1 hw2 ⊢
  refine ⟨trivial, ?_, ?_, ?_, ?_, ?_, ?_, ?_, ?_⟩
  · simp [ha, Action.credentialsArg]
  · simp [hd, Action.delayArg]
  · simp [hr, List.count_cons]
  · simp [hw1, Action.levelArg]
  · simpa [Action.levelArg] using hw2
  · simp [Action.levelArg]
  · simp [hp, List.count_cons]
  · simp [digitalWrite]

/-- An instance of C8: an association that succeeds at the fourth poll, with a
bound of four polls; `setup()` then returns with the LED pin HIGH after three
delays of 500 ms. -/
theorem setup_connect_phase_witness :
    (∀ k, k < 3 → envFourthPoll.WiFi_status k ≠ WL_CONNECTED) ∧
    envFourthPoll.WiFi_status 3 = WL_CONNECTED ∧
    ∃ t, setup 4 exampleSecrets envFourthPoll freshBoard = some t ∧
      delays (freshBoard.since t) = [500, 500, 500] ∧
      t.pins LED_PIN = HIGH := by
  refine ⟨by decide, by decide, ?_⟩
  obtain ⟨t, h1, _, _, h4, _, _, _, _, _, h10⟩ :=
    setup_connect_phase exampleSecrets envFourthPoll freshBoard 3 4 (by decide) (by decide)
      (by decide)
  exact ⟨t, h1, h4, h10⟩

/-! ## Which readings are valid -/

/-- Comparing with the sentinel by `==` is comparing the bits: -127 is neither
a NaN nor a zero. -/
theorem eq_DEVICE_DISCONNECTED_C_iff (x : float) :
    float.eq x DEVICE_DISCONNECTED_C = true ↔ x = DEVICE_DISCONNECTED_C := by
  constructor
  · intro h
    have hz : DEVICE_DISCONNECTED_C.isZero = false := by decide
    simp only [float.eq, hz, Bool.and_false, Bool.or_false, Bool.and_eq_true, beq_iff_eq] at h
    cases x
    simp only [DEVICE_DISCONNECTED_C] at h ⊢
    rw [h.2]
  · rintro rfl
    decide

/-- C9. When the Celsius read compares equal to the sentinel, replacing the
Fahrenheit answers of the sensor by any others leaves the board after the
iteration (every call made, and the pins) the same; no call of the iteration
is given a floating-point value, no document is serialised and nothing is
posted. -/
theorem loop_fahrenheit_ignored (cfg : Secrets) (env : LoopEnv) (s : Board)
    (h : float.eq (env.getTempCByIndex 0) DEVICE_DISCONNECTED_C = true) :
    (∀ tempF : Nat → float,
      loop cfg { env with getTempFByIndex := tempF } s = loop cfg env s) ∧
    (∀ a ∈ s.since (loop cfg env s), a.floats = []) ∧
    serialized (s.since (loop cfg env s)) = [] ∧
    posted (s.since (loop cfg env s)) = [] := by
  have hs : s.since (loop cfg env s) =
      [Action.requestTemperatures, Action.getTempCByIndex 0, Action.getTempFByIndex 0,
       Action.Serial_println "Error: Could not read temperature data", Action.delay 2000] := by
    apply since_append
    simp [loop, h]
  rw [hs]
  refine ⟨fun tempF => by simp [loop, h], ?_, rfl, rfl⟩
  intro a ha
  simp at ha
  rcases ha with rfl | rfl | rfl | rfl | rfl <;> rfl

/-- An instance of C9: for the example whose probe is unreachable, a Fahrenheit
answer of 70.7 instead of the Fahrenheit sentinel gives the same board. -/
theorem loop_fahrenheit_ignored_witness :
    float.eq (envProbeMissing.getTempCByIndex 0) DEVICE_DISCONNECTED_C = true ∧
    loop exampleSecrets { envProbeMissing with getTempFByIndex := fun _ => f70_70 } freshBoard =
      loop exampleSecrets envProbeMissing freshBoard :=
  ⟨by decide,
    (loop_fahrenheit_ignored exampleSecrets envProbeMissing freshBoard (by decide)).1
      (fun _ => f70_70)⟩

/-- C10. For every Celsius value other than the sentinel and every Fahrenheit
value, the iteration takes the valid path: it logs the temperature line with
both values, serialises exactly one document, whose temperature_c and
temperature_f members hold the two values as read, ends with the delay of
60000 ms as its only delay, and, when the network is connected, issues exactly
one POST, of the text serialised from that document. -/
theorem loop_valid_by_celsius_alone (cfg : Secrets) (env : LoopEnv) (s : Board)
    (hne : env.getTempCByIndex 0 ≠ DEVICE_DISCONNECTED_C) :
    float.eq (env.getTempCByIndex 0) DEVICE_DISCONNECTED_C = false ∧
    ∃ doc : JsonDocument,
      serialized (s.since (loop cfg env s)) = [doc] ∧
      doc.get? "temperature_c" = some (JsonVariant.flt (env.getTempCByIndex 0)) ∧
      doc.get? "temperature_f" = some (JsonVariant.flt (env.getTempFByIndex 0)) ∧
      Action.Serial_printf "Temperature: %.2f C / %.2f F\n"
          [PrintfArg.flt (env.getTempCByIndex 0), PrintfArg.flt (env.getTempFByIndex 0)]
        ∈ s.since (loop cfg env s) ∧
      delays (s.since (loop cfg env s)) = [60000] ∧
      (env.WiFi_status = WL_CONNECTED →
        posted (s.since (loop cfg env s)) = [env.serializeJson doc]) := by
  have hvalid : float.eq (env.getTempCByIndex 0) DEVICE_DISCONNECTED_C = false := by
    cases hb : float.eq (env.getTempCByIndex 0) DEVICE_DISCONNECTED_C
    · rfl
    · exact absurd ((eq_DEVICE_DISCONNECTED_C_iff _).mp hb) hne
  refine ⟨hvalid, payload cfg (env.getTempCByIndex 0) (env.getTempFByIndex 0), ?_, ?_, ?_, ?_⟩
  · rw [since_append s _ _ (loop_trace cfg env s)]
    by_cases h2 : env.WiFi_status = WL_CONNECTED <;>
      by_cases h3 : 0 < env.POST <;>
      simp [loop, upload, hvalid, h2, h3, serialized, Action.docArg]
  · rw [payload_members]; rfl
  · rw [payload_members]; rfl
  · rw [since_append s _ _ (loop_trace cfg env s)]
    by_cases h2 : env.WiFi_status = WL_CONNECTED <;>
      by_cases h3 : 0 < env.POST <;>
      simp [loop, upload, hvalid, h2, h3, delays, posted, Action.delayArg, Action.bodyArg]

/-- An instance of C10: 21.5 C read together with the Fahrenheit sentinel
-196.6; that value is what the document holds, and the iteration posts the
serialised document. -/
theorem loop_valid_by_celsius_alone_witness :
    envMixed.getTempCByIndex 0 ≠ DEVICE_DISCONNECTED_C ∧
    envMixed.getTempFByIndex 0 = DEVICE_DISCONNECTED_F ∧
    ∃ doc : JsonDocument,
      serialized (freshBoard.since (loop exampleSecrets envMixed freshBoard)) = [doc] ∧
      doc.get? "temperature_f" = some (JsonVariant.flt DEVICE_DISCONNECTED_F) ∧
      posted (freshBoard.since (loop exampleSecrets envMixed freshBoard)) =
        [envMixed.serializeJson doc] := by
  refine ⟨by decide, rfl, ?_⟩
  obtain ⟨_, doc, h1, _, h3, _, _, h6⟩ :=
    loop_valid_by_celsius_alone exampleSecrets envMixed freshBoard (by decide)
  exact ⟨doc, h1, h3, h6 rfl⟩

end DavePoolMonitor
